import Mathlib

/-!
Verification of the mempool_watcher snapshot-acquisition and
replacement-graph extraction engine, shallowly embedded from
`scripts/fetch_mempool_space.py` and `scripts/fetch_tx_details.py`.
-/

namespace MempoolWatcher

/-! ## Retrying fetcher (`fetch_json_with_retry`, fetch_mempool_space.py lines 55-76)

The fetch client is abstracted as a function from the call index (how many
calls happened before) to an `Except` outcome.  The loop state of the Python
code is the failure counter `attempt`; here `i` is the index of the current
call (equal to the number of failures so far) and `remaining` is
`retries - i`, the retry budget still available. -/

/-- One step of the retry loop of `fetch_json_with_retry`.  Returns the final
outcome, the list of back-off sleeps performed (in seconds, exact rationals),
and the number of client calls made. -/
def fetchLoop {E V : Type} (fetch : Nat → Except E V) (bbase bmax : ℚ) :
    Nat → Nat → Except E V × List ℚ × Nat
  | i, remaining =>
    match fetch i with
    | .ok v => (.ok v, [], 1)
    | .error e =>
      match remaining with
      | 0 => (.error e, [], 1)
      | r + 1 =>
        let d := min (bbase * 2 ^ i) bmax
        let rest := fetchLoop fetch bbase bmax (i + 1) r
        (rest.1, d :: rest.2.1, rest.2.2 + 1)

/-- The function `fetch_json_with_retry`: up to `retries` retries after the first call,
sleeping `min (bbase * 2 ^ (attempt - 1)) bmax` before retry attempt
`attempt ∈ 1..retries`, finally re-raising the last error unchanged. -/
def fetch_json_with_retry {E V : Type} (fetch : Nat → Except E V)
    (retries : Nat) (bbase bmax : ℚ) : Except E V × List ℚ × Nat :=
  fetchLoop fetch bbase bmax 0 retries

/-! ## Replacement trees and the flattener
(`iter_replacement_edges`, fetch_mempool_space.py lines 85-103)

A replacement-tree node carries a transaction object (`tx`, whose absence in
the JSON is modelled by the all-`none` transaction, matching
`node.get("tx", {})`), a `time`, and the per-child metadata `interval`,
`fullRbf`, `mined` that are read when the node occurs as an element of a
parent's `replaces` array. -/

/-- The fields of a `tx` JSON object that the scripts read. -/
structure Tx where
  txid : Option String
  fee : Option ℚ
  rate : Option ℚ
  vsize : Option ℚ
deriving DecidableEq, Repr

/-- A node of the `replacements` payload tree: `tx`, `time`, `interval`,
`fullRbf`, `mined`, and the nested `replaces` array. -/
inductive RNode : Type where
  | mk : Tx → Option Int → Option Int → Option Bool → Option Bool →
      List RNode → RNode

def RNode.tx : RNode → Tx
  | .mk t _ _ _ _ _ => t

def RNode.time : RNode → Option Int
  | .mk _ t _ _ _ _ => t

def RNode.interval : RNode → Option Int
  | .mk _ _ i _ _ _ => i

def RNode.fullRbf : RNode → Option Bool
  | .mk _ _ _ f _ _ => f

def RNode.mined : RNode → Option Bool
  | .mk _ _ _ _ m _ => m

def RNode.replaces : RNode → List RNode
  | .mk _ _ _ _ _ r => r

/-- One record emitted by `iter_replacement_edges` (a Python dict with keys
`new_tx`, `old_tx`, `new_time`, `old_time`, `interval`, `full_rbf`,
`mined`). -/
structure Edge where
  new_tx : Tx
  old_tx : Tx
  new_time : Option Int
  old_time : Option Int
  interval : Option Int
  full_rbf : Option Bool
  mined : Option Bool
deriving DecidableEq, Repr

/-- The flattener `iter_replacement_edges`: for every direct child `repl` of `node`, emit
one edge pairing the parent as "new" and the child as "old", then recurse
into the child; children are processed in array order and each child's
edge precedes the edges of its own subtree (depth-first). -/
def iter_replacement_edges : RNode → List Edge
  | .mk tx time _ _ _ replaces => go tx time replaces
where
  go (tx : Tx) (time : Option Int) : List RNode → List Edge
    | [] => []
    | repl :: rest =>
      { new_tx := tx, old_tx := repl.tx, new_time := time,
        old_time := repl.time, interval := repl.interval,
        full_rbf := repl.fullRbf,
        mined := repl.mined } :: (iter_replacement_edges repl ++ go tx time rest)

/-! ## Persisting replacement edges (main, fetch_mempool_space.py lines 393-416)

The write-time validity filter: `if not new_txid or not old_txid: continue`
drops an edge when either side's txid is missing (`None`) or empty (`""`). -/

/-- One row of the `replacement_events` table. -/
structure ReplacementRow where
  observed_at : String
  event_time : Option Int
  old_txid : String
  new_txid : String
  old_fee_sat : Option ℚ
  old_feerate : Option ℚ
  old_vsize : Option ℚ
  new_fee_sat : Option ℚ
  new_feerate : Option ℚ
  new_vsize : Option ℚ
  interval_seconds : Option Int
  full_rbf : Option Bool
  mined : Option Bool
deriving DecidableEq, Repr

/-- Python truthiness of an optional txid string: `None` and `""` are falsy. -/
def txidTruthy : Option String → Bool
  | some s => !(s == "")
  | none => false

/-- The write-time validity test applied to a flattened edge record. -/
def edgeValid (e : Edge) : Bool :=
  txidTruthy e.new_tx.txid && txidTruthy e.old_tx.txid

/-- The `replacement_events` row built from a flattened edge record (field
wiring of the `write_replacement_event` call in `main`). -/
def rowOfEdge (ts : String) (e : Edge) : ReplacementRow :=
  { observed_at := ts, event_time := e.new_time,
    old_txid := e.old_tx.txid.getD "", new_txid := e.new_tx.txid.getD "",
    old_fee_sat := e.old_tx.fee, old_feerate := e.old_tx.rate,
    old_vsize := e.old_tx.vsize, new_fee_sat := e.new_tx.fee,
    new_feerate := e.new_tx.rate, new_vsize := e.new_tx.vsize,
    interval_seconds := e.interval, full_rbf := e.full_rbf, mined := e.mined }

/-- The body of the inner edge loop of `main`: skip the edge unless both
derived txids are truthy, otherwise write the row. -/
def writeEdgeRow (ts : String) (e : Edge) : Option ReplacementRow :=
  match e.new_tx.txid, e.old_tx.txid with
  | some nt, some ot =>
    if nt = "" ∨ ot = "" then none
    else some
      { observed_at := ts, event_time := e.new_time, old_txid := ot,
        new_txid := nt, old_fee_sat := e.old_tx.fee,
        old_feerate := e.old_tx.rate, old_vsize := e.old_tx.vsize,
        new_fee_sat := e.new_tx.fee, new_feerate := e.new_tx.rate,
        new_vsize := e.new_tx.vsize, interval_seconds := e.interval,
        full_rbf := e.full_rbf, mined := e.mined }
  | _, _ => none

/-- The rows written for the flattened edges of one payload item. -/
def writeEdges (ts : String) (edges : List Edge) : List ReplacementRow :=
  edges.filterMap (writeEdgeRow ts)

/-- The rows written for a whole `replacements` payload (a list of
independent replacement trees), as in `for item in data: for edge in
iter_replacement_edges(item): ...`. -/
def ingestReplacements (ts : String) (payload : List RNode) :
    List ReplacementRow :=
  (payload.map (fun item => writeEdges ts (iter_replacement_edges item))).flatten

/-! ## Per-cycle snapshot writes (main, fetch_mempool_space.py lines 363-422)

For each enabled endpoint the loop body either succeeds (success snapshot
with latency and payload) or the fetch raises after exhausting retries
(failure snapshot with the error text, then `continue` to the next
endpoint).  The payload type is abstract. -/

/-- One row of the `api_snapshots` table (payload held abstractly). -/
structure SnapshotRow (α : Type) where
  observed_at : String
  endpoint : String
  success : Bool
  latency_ms : Option Nat
  error : Option String
  data : Option α
deriving DecidableEq, Repr

/-- The sequence of `write_snapshot` calls performed by one cycle of `main`
over the enabled endpoints, given the per-endpoint fetch outcomes. -/
def runCycleSnapshots {α : Type} (ts : String) (endpoints : List String)
    (fetch : String → Except String (α × Nat)) : List (SnapshotRow α) :=
  endpoints.map (fun name =>
    match fetch name with
    | .ok dl =>
      { observed_at := ts, endpoint := name, success := true,
        latency_ms := some dl.2, error := none, data := some dl.1 }
    | .error e =>
      { observed_at := ts, endpoint := name, success := false,
        latency_ms := none, error := some e, data := none })

/-! ## Backend selection (`DbWriter.__init__`, fetch_mempool_space.py lines 107-138)

`urlparse(db_url).scheme` follows CPython: the text before the first `:`
is a scheme iff it is non-empty, starts with an ASCII letter, and contains
only ASCII letters, digits, `+`, `-`, `.`; it is lower-cased.  Otherwise the
scheme is the empty string. -/

def isSchemeChar (c : Char) : Bool :=
  c.isAlphanum || c == '+' || c == '-' || c == '.'

def hasColon : List Char → Bool
  | [] => false
  | c :: cs => c == ':' || hasColon cs

def takeUntilColon : List Char → List Char
  | [] => []
  | c :: cs => if c == ':' then [] else c :: takeUntilColon cs

def validSchemeChars : List Char → Bool
  | [] => false
  | c :: cs => c.isAlpha && (c :: cs).all isSchemeChar

/-- The scheme component of CPython's `urlparse(url)`. -/
def schemeOf (url : String) : String :=
  let cs := url.toList
  let pre := takeUntilColon cs
  if hasColon cs && validSchemeChars pre then ⟨pre.map Char.toLower⟩ else ""

/-- The two backend kinds of `DbWriter`. -/
inductive DbKind : Type where
  | sqlite
  | postgres
deriving DecidableEq, Repr

/-- The scheme dispatch of `DbWriter.__init__`: postgres/postgresql select
the networked backend, sqlite/empty select the embedded backend, anything
else raises `ValueError`. -/
def dbKindOf (url : String) : Except String DbKind :=
  let s := schemeOf url
  if s = "postgres" ∨ s = "postgresql" then .ok .postgres
  else if s = "sqlite" ∨ s = "" then .ok .sqlite
  else .error ("Unsupported db url scheme: " ++ s)

/-- Startup of `main`: `db_writer = DbWriter(args.db) if args.db else None`;
a `ValueError` from `DbWriter.__init__` propagates and aborts the run. -/
def mainStartup (dbUrl : String) : Except String (Option DbKind) :=
  if dbUrl = "" then .ok none else (dbKindOf dbUrl).map some

/-- The run: the storage backend is constructed before the polling loop, so
a startup failure yields the error and the loop body (`run`) never runs. -/
def runProgram {α : Type} (dbUrl : String) (run : Option DbKind → α) :
    Except String α :=
  (mainStartup dbUrl).map run

/-! ## Schema DDL (`DbWriter._ensure_schema`, fetch_mempool_space.py lines
140-214, and `ensure_schema`, fetch_tx_details.py lines 35-50)

The DDL statements are modelled as data; every statement is of the
`IF NOT EXISTS` form. -/

structure ColumnSpec where
  name : String
  sqlType : String
  notNull : Bool
  primaryKey : Bool
  autoInc : Bool
deriving DecidableEq, Repr

structure TableSpec where
  name : String
  columns : List ColumnSpec
deriving DecidableEq, Repr

structure IndexSpec where
  name : String
  table : String
  columns : List String
deriving DecidableEq, Repr

inductive Stmt : Type where
  | createTable : TableSpec → Stmt
  | createIndex : IndexSpec → Stmt
deriving DecidableEq, Repr

def apiSnapshotsSqlite : TableSpec :=
  ⟨"api_snapshots",
   [⟨"id", "INTEGER", false, true, true⟩,
    ⟨"observed_at", "TEXT", true, false, false⟩,
    ⟨"endpoint", "TEXT", true, false, false⟩,
    ⟨"success", "INTEGER", true, false, false⟩,
    ⟨"latency_ms", "INTEGER", false, false, false⟩,
    ⟨"error", "TEXT", false, false, false⟩,
    ⟨"data_json", "TEXT", false, false, false⟩]⟩

def replacementEventsSqlite : TableSpec :=
  ⟨"replacement_events",
   [⟨"id", "INTEGER", false, true, true⟩,
    ⟨"observed_at", "TEXT", true, false, false⟩,
    ⟨"event_time", "INTEGER", false, false, false⟩,
    ⟨"old_txid", "TEXT", true, false, false⟩,
    ⟨"new_txid", "TEXT", true, false, false⟩,
    ⟨"old_fee_sat", "REAL", false, false, false⟩,
    ⟨"old_feerate", "REAL", false, false, false⟩,
    ⟨"old_vsize", "REAL", false, false, false⟩,
    ⟨"new_fee_sat", "REAL", false, false, false⟩,
    ⟨"new_feerate", "REAL", false, false, false⟩,
    ⟨"new_vsize", "REAL", false, false, false⟩,
    ⟨"interval_seconds", "INTEGER", false, false, false⟩,
    ⟨"full_rbf", "INTEGER", false, false, false⟩,
    ⟨"mined", "INTEGER", false, false, false⟩]⟩

def apiSnapshotsPg : TableSpec :=
  ⟨"api_snapshots",
   [⟨"id", "SERIAL", false, true, false⟩,
    ⟨"observed_at", "TEXT", true, false, false⟩,
    ⟨"endpoint", "TEXT", true, false, false⟩,
    ⟨"success", "INTEGER", true, false, false⟩,
    ⟨"latency_ms", "INTEGER", false, false, false⟩,
    ⟨"error", "TEXT", false, false, false⟩,
    ⟨"data_json", "TEXT", false, false, false⟩]⟩

def replacementEventsPg : TableSpec :=
  ⟨"replacement_events",
   [⟨"id", "SERIAL", false, true, false⟩,
    ⟨"observed_at", "TEXT", true, false, false⟩,
    ⟨"event_time", "BIGINT", false, false, false⟩,
    ⟨"old_txid", "TEXT", true, false, false⟩,
    ⟨"new_txid", "TEXT", true, false, false⟩,
    ⟨"old_fee_sat", "DOUBLE PRECISION", false, false, false⟩,
    ⟨"old_feerate", "DOUBLE PRECISION", false, false, false⟩,
    ⟨"old_vsize", "DOUBLE PRECISION", false, false, false⟩,
    ⟨"new_fee_sat", "DOUBLE PRECISION", false, false, false⟩,
    ⟨"new_feerate", "DOUBLE PRECISION", false, false, false⟩,
    ⟨"new_vsize", "DOUBLE PRECISION", false, false, false⟩,
    ⟨"interval_seconds", "BIGINT", false, false, false⟩,
    ⟨"full_rbf", "INTEGER", false, false, false⟩,
    ⟨"mined", "INTEGER", false, false, false⟩]⟩

/-- The DDL statement sequence executed by `DbWriter._ensure_schema` for
each backend kind (lines 142-213): the sqlite branch creates the two tables
and four indexes, the postgres branch creates the two tables only. -/
def dbWriterEnsureSchema : DbKind → List Stmt
  | .sqlite =>
    [.createTable apiSnapshotsSqlite,
     .createTable replacementEventsSqlite,
     .createIndex ⟨"idx_api_snapshots_time", "api_snapshots", ["observed_at"]⟩,
     .createIndex ⟨"idx_api_snapshots_endpoint", "api_snapshots", ["endpoint"]⟩,
     .createIndex ⟨"idx_replacement_events_time", "replacement_events",
       ["observed_at"]⟩,
     .createIndex ⟨"idx_replacement_events_txids", "replacement_events",
       ["old_txid", "new_txid"]⟩]
  | .postgres =>
    [.createTable apiSnapshotsPg,
     .createTable replacementEventsPg]

/-- The DDL statement sequence of `ensure_schema` in fetch_tx_details.py
(sqlite connections only). -/
def txDetailsEnsureSchema : List Stmt :=
  [.createTable
     ⟨"tx_details",
      [⟨"txid", "TEXT", false, true, false⟩,
       ⟨"fetched_at", "TEXT", true, false, false⟩,
       ⟨"success", "INTEGER", true, false, false⟩,
       ⟨"status_code", "INTEGER", false, false, false⟩,
       ⟨"error", "TEXT", false, false, false⟩,
       ⟨"data_json", "TEXT", false, false, false⟩]⟩,
   .createIndex ⟨"idx_tx_details_fetched_at", "tx_details", ["fetched_at"]⟩]

def stmtsTables (l : List Stmt) : List TableSpec :=
  l.filterMap fun s =>
    match s with
    | .createTable t => some t
    | .createIndex _ => none

def stmtsIndexes (l : List Stmt) : List IndexSpec :=
  l.filterMap fun s =>
    match s with
    | .createTable _ => none
    | .createIndex i => some i

def tableNames (l : List Stmt) : List String :=
  (stmtsTables l).map (fun t => t.name)

/-- The backend-independent part of a table: column names, NOT NULL flags
and PRIMARY KEY flags, in order. -/
def logicalSig (t : TableSpec) : String × List (String × Bool × Bool) :=
  (t.name, t.columns.map (fun c => (c.name, c.notNull, c.primaryKey)))

def logicalSigs (l : List Stmt) : List (String × List (String × Bool × Bool)) :=
  (stmtsTables l).map logicalSig

def idxSig (i : IndexSpec) : String × String × List String :=
  (i.name, i.table, i.columns)

/-- Logical database state reached by executing DDL: the tables and indexes
that exist. -/
structure DbState where
  tables : List TableSpec
  indexes : List IndexSpec
deriving DecidableEq, Repr

def emptyDb : DbState := ⟨[], []⟩

/-- Execution of one DDL statement, with `IF NOT EXISTS` semantics. -/
def applyStmt (s : DbState) : Stmt → DbState
  | .createTable t =>
    if s.tables.any (fun u => u.name == t.name) then s
    else { s with tables := s.tables ++ [t] }
  | .createIndex i =>
    if s.indexes.any (fun j => j.name == i.name) then s
    else { s with indexes := s.indexes ++ [i] }

def applyDDL (s : DbState) (l : List Stmt) : DbState :=
  l.foldl applyStmt s

/-! ## tx_details upsert (`fetch_tx_details.py` main, lines 106-136)

`INSERT OR REPLACE INTO tx_details ... (txid PRIMARY KEY, ...)`: under the
primary key on `txid`, the conflicting row (if any) is deleted and the new
row inserted. -/

/-- One row of the `tx_details` table. -/
structure TxDetailRow where
  txid : String
  fetched_at : String
  success : Bool
  status_code : Option Int
  error : Option String
  data_json : Option String
deriving DecidableEq, Repr

/-- The `INSERT OR REPLACE` write, keyed by the `txid` primary key. -/
def upsertTxDetail (table : List TxDetailRow) (row : TxDetailRow) :
    List TxDetailRow :=
  table.filter (fun r => !(r.txid == row.txid)) ++ [row]

/-- The primary-key invariant: no two rows share a `txid`. -/
def uniqueKey (table : List TxDetailRow) : Prop :=
  table.Pairwise (fun a b => a.txid ≠ b.txid)

/-! ## Run metrics (`Metrics`, fetch_mempool_space.py lines 315-333) -/

structure Metrics where
  total_ok : Nat
  total_err : Nat
  total_latency_ms : Nat
deriving DecidableEq, Repr

def Metrics.init : Metrics := ⟨0, 0, 0⟩

/-- The method `Metrics.record`: a success bumps `total_ok` (and the latency total when
a latency is present); a failure bumps `total_err`. -/
def Metrics.record (m : Metrics) (ok : Bool) (latency_ms : Option Nat) :
    Metrics :=
  if ok then
    { m with total_ok := m.total_ok + 1,
             total_latency_ms :=
               match latency_ms with
               | some l => m.total_latency_ms + l
               | none => m.total_latency_ms }
  else { m with total_err := m.total_err + 1 }

/-- The average latency reported by `Metrics.summary`:
`int(total_latency_ms / total_ok) if total_ok else 0`. -/
def Metrics.summaryAvgLatency (m : Metrics) : Nat :=
  if m.total_ok = 0 then 0 else m.total_latency_ms / m.total_ok

/-- The success rate reported by `Metrics.summary`:
`(total_ok / total * 100) if total else 0.0`, as an exact rational. -/
def Metrics.summaryRate (m : Metrics) : ℚ :=
  if m.total_ok + m.total_err = 0 then 0
  else (m.total_ok : ℚ) / ((m.total_ok : ℚ) + (m.total_err : ℚ)) * 100

/-- Replay a sequence of `(ok, latency)` record calls from a fresh counter. -/
def runMetrics (calls : List (Bool × Option Nat)) : Metrics :=
  calls.foldl (fun m c => m.record c.1 c.2) Metrics.init

/-! ## Theorems -/

lemma fetchLoop_all_fail {E V : Type} (err : Nat → E) (bbase bmax : ℚ)
    (fetch : Nat → Except E V) (h : ∀ i, fetch i = .error (err i)) :
    ∀ r i, fetchLoop fetch bbase bmax i r =
      (.error (err (i + r)),
       (List.range r).map (fun j => min (bbase * 2 ^ (i + j)) bmax),
       r + 1) := by
  intro r
  induction r with
  | zero => intro i; simp [fetchLoop, h i]
  | succ r ih =>
    intro i
    have hrec := ih (i + 1)
    simp only [fetchLoop, h i, hrec, List.range_succ_eq_map, List.map_cons,
      List.map_map, Prod.mk.injEq]
    refine ⟨by rw [show i + 1 + r = i + (r + 1) by omega], ?_, trivial⟩
    rw [Nat.add_zero]
    refine congrArg (List.cons _) ?_
    apply List.map_congr_left
    intro j _
    have hj : i + 1 + j = i + (j + 1) := by omega
    simp [Function.comp, hj]

/-- C2: against a client failing on every attempt, `fetch_json_with_retry`
with retry budget `n` makes exactly `n + 1` client calls, sleeps
`min (bbase * 2 ^ (a - 1)) bmax` before each retry attempt `a ∈ 1..n`
(indexed below by `a - 1 ∈ 0..n-1`), and re-raises the error of the last
attempt unchanged. -/
theorem fetch_retry_exhaustion {E V : Type} (err : Nat → E) (n : Nat)
    (bbase bmax : ℚ) (fetch : Nat → Except E V)
    (h : ∀ i, fetch i = .error (err i)) :
    fetch_json_with_retry fetch n bbase bmax =
      (.error (err n),
       (List.range n).map (fun a => min (bbase * 2 ^ a) bmax),
       n + 1) := by
  have hl := fetchLoop_all_fail err bbase bmax fetch h n 0
  simpa [fetch_json_with_retry] using hl

/-- Witness for C2 at `n = 2`, `bbase = 1`, `bmax = 3`: three calls, sleeps
`[1, 2]`, final error from call index 2. -/
theorem fetch_retry_exhaustion_witness :
    fetch_json_with_retry (fun i => (.error i : Except Nat Unit)) 2 1 3 =
      (.error 2, [1, 2], 3) := by
  have hl := fetch_retry_exhaustion (fun i => i) 2 1 3
    (fun i => (.error i : Except Nat Unit)) (fun _ => rfl)
  rw [hl]
  norm_num [List.range_succ]

/-- C3: flattening the tree with root `R` having children `[A, B]`, where
`A` has child `C`, yields exactly the edges `R←A`, `A←C`, `R←B` in
depth-first order; flattening any node with an empty `replaces` list yields
no edges. -/
theorem flatten_shape_example
    (txR txA txB txC : Tx) (tR tA tB tC iR iA iB iC : Option Int)
    (fR fA fB fC mR mA mB mC : Option Bool) :
    (iter_replacement_edges
        (.mk txR tR iR fR mR
          [.mk txA tA iA fA mA [.mk txC tC iC fC mC []],
           .mk txB tB iB fB mB []]) =
      [{ new_tx := txR, old_tx := txA, new_time := tR, old_time := tA,
         interval := iA, full_rbf := fA, mined := mA },
       { new_tx := txA, old_tx := txC, new_time := tA, old_time := tC,
         interval := iC, full_rbf := fC, mined := mC },
       { new_tx := txR, old_tx := txB, new_time := tR, old_time := tB,
         interval := iB, full_rbf := fB, mined := mB }]) ∧
    ∀ (tx : Tx) (t i : Option Int) (f m : Option Bool),
      iter_replacement_edges (.mk tx t i f m []) = [] := by
  constructor
  · simp [iter_replacement_edges, iter_replacement_edges.go, RNode.tx,
      RNode.time, RNode.interval, RNode.fullRbf, RNode.mined]
  · intro tx t i f m
    simp [iter_replacement_edges, iter_replacement_edges.go]

/-- C4: ingesting the single-tree replacements payload of the spec's
end-to-end scenario produces exactly one `replacement_events` row with
`old_txid = "old1"`, `new_txid = "new1"`, `old_fee_sat = 300`,
`new_fee_sat = 500`, `interval_seconds = 100`, `full_rbf = false` and
`event_time = 1000` (the newer transaction's time). -/
theorem ingest_single_tree_row (ts : String) :
    ingestReplacements ts
      [.mk ⟨some "new1", some 500, none, some 200⟩ (some 1000) none none none
        [.mk ⟨some "old1", some 300, none, some 200⟩ (some 900) (some 100)
          (some false) none []]] =
    [{ observed_at := ts, event_time := some 1000, old_txid := "old1",
       new_txid := "new1", old_fee_sat := some 300, old_feerate := none,
       old_vsize := some 200, new_fee_sat := some 500, new_feerate := none,
       new_vsize := some 200, interval_seconds := some 100,
       full_rbf := some false, mined := none }] := by
  simp [ingestReplacements, writeEdges, writeEdgeRow, iter_replacement_edges,
    iter_replacement_edges.go, RNode.tx, RNode.time, RNode.interval,
    RNode.fullRbf, RNode.mined, List.filterMap_cons]

/-- C5: when the fetch for one endpoint exhausts its retries and raises,
the cycle writes a failing snapshot for that endpoint (success `false`,
error text captured, latency and payload absent) and still writes one
snapshot per enabled endpoint — the failure never shortens the cycle. -/
theorem cycle_failure_isolated {α : Type} (ts name msg : String)
    (eps : List String) (fetch : String → Except String (α × Nat)) (i : Nat)
    (hname : eps[i]? = some name) (hf : fetch name = .error msg) :
    (runCycleSnapshots ts eps fetch).length = eps.length ∧
    (runCycleSnapshots ts eps fetch)[i]? = some
      { observed_at := ts, endpoint := name, success := false,
        latency_ms := none, error := some msg, data := none } := by
  constructor
  · simp [runCycleSnapshots]
  · simp [runCycleSnapshots, List.getElem?_map, hname, hf]

/-- Witness for C5: two endpoints, the first one failing; the cycle still
produces two snapshots and the first is the failing one. -/
theorem cycle_failure_isolated_witness :
    (runCycleSnapshots (α := Unit) "t" ["mempool", "fees"]
        (fun n => if n = "mempool" then .error "boom" else .ok ((), 5))).length
      = 2 ∧
    (runCycleSnapshots (α := Unit) "t" ["mempool", "fees"]
        (fun n => if n = "mempool" then .error "boom" else .ok ((), 5)))[0]? =
      some { observed_at := "t", endpoint := "mempool", success := false,
             latency_ms := none, error := some "boom", data := none } := by
  exact cycle_failure_isolated "t" "mempool" "boom" ["mempool", "fees"]
    (fun n => if n = "mempool" then .error "boom" else .ok ((), 5)) 0
    rfl (by simp)

lemma writeEdgeRow_eq (ts : String) (e : Edge) :
    writeEdgeRow ts e = if edgeValid e then some (rowOfEdge ts e) else none := by
  unfold writeEdgeRow edgeValid txidTruthy rowOfEdge
  cases hn : e.new_tx.txid with
  | none => simp
  | some nt =>
    cases ho : e.old_tx.txid with
    | none => simp
    | some ot =>
      by_cases h1 : nt = "" <;> by_cases h2 : ot = "" <;>
        simp [h1, h2, hn, ho]

lemma filterMap_guard {α β : Type} (p : α → Bool) (f : α → β) (l : List α) :
    l.filterMap (fun a => if p a then some (f a) else none) =
      (l.filter p).map f := by
  induction l with
  | nil => rfl
  | cons a l ih =>
    by_cases h : p a <;> simp [List.filterMap_cons, List.filter_cons, h, ih]

lemma filter_length_add_countP_not {α : Type} (p : α → Bool) (l : List α) :
    (l.filter p).length + l.countP (fun a => !(p a)) = l.length := by
  induction l with
  | nil => rfl
  | cons a l ih =>
    by_cases h : p a <;>
      simp [List.filter_cons, List.countP_cons, h, ih] <;> omega

/-- C6: a flattened edge record is written to `replacement_events` iff both
derived txids are present and non-empty (the filter acts at write time, on
the flattener's output), and each invalid record lowers the written count by
exactly one: written rows are exactly the valid edges mapped to rows, and
`written + invalid = total`. -/
theorem write_filter_valid_edges (ts : String) (edges : List Edge) :
    writeEdges ts edges = (edges.filter edgeValid).map (rowOfEdge ts) ∧
    (writeEdges ts edges).length +
      edges.countP (fun e => !(edgeValid e)) = edges.length := by
  have hmap : writeEdges ts edges = (edges.filter edgeValid).map (rowOfEdge ts) := by
    unfold writeEdges
    rw [funext (writeEdgeRow_eq ts)]
    exact filterMap_guard edgeValid (rowOfEdge ts) edges
  refine ⟨hmap, ?_⟩
  rw [hmap, List.length_map]
  exact filter_length_add_countP_not edgeValid edges

/-- C7: a connection string whose scheme is not `sqlite`, empty, `postgres`
or `postgresql` makes startup fail with the configuration error before the
polling loop ever runs (for any loop body); a sqlite-or-empty scheme selects
the embedded backend and a postgres/postgresql scheme selects the networked
backend. -/
theorem db_scheme_selection (url : String) :
    (schemeOf url ≠ "sqlite" → schemeOf url ≠ "" →
      schemeOf url ≠ "postgres" → schemeOf url ≠ "postgresql" →
      ∀ {α : Type} (run : Option DbKind → α),
        runProgram url run =
          .error ("Unsupported db url scheme: " ++ schemeOf url)) ∧
    ((schemeOf url = "sqlite" ∨ schemeOf url = "") →
      dbKindOf url = .ok .sqlite) ∧
    ((schemeOf url = "postgres" ∨ schemeOf url = "postgresql") →
      dbKindOf url = .ok .postgres) := by
  refine ⟨?_, ?_, ?_⟩
  · intro h1 h2 h3 h4 α run
    have hurl : url ≠ "" := by
      intro he
      exact h2 (by rw [he]; rfl)
    have hk : dbKindOf url =
        .error ("Unsupported db url scheme: " ++ schemeOf url) := by
      unfold dbKindOf
      rw [if_neg (by tauto), if_neg (by tauto)]
    simp [runProgram, mainStartup, hurl, hk, Except.map]
  · intro h
    unfold dbKindOf
    rcases h with h | h <;> rw [h] <;> simp
  · intro h
    unfold dbKindOf
    rcases h with h | h <;> rw [h] <;> simp

/-- Witness for C7: the `mysql` scheme aborts startup with the error and no
loop output; a sqlite path and a postgresql URL select their backends. -/
theorem db_scheme_selection_witness :
    runProgram "mysql://user@host/db" (fun k => k) =
      .error "Unsupported db url scheme: mysql" ∧
    dbKindOf "sqlite:///data/mempool.db" = .ok .sqlite ∧
    dbKindOf "postgresql://user@host/db" = .ok .postgres := by
  have hm : schemeOf "mysql://user@host/db" = "mysql" := by decide
  have hs : schemeOf "sqlite:///data/mempool.db" = "sqlite" := by decide
  have hp : schemeOf "postgresql://user@host/db" = "postgresql" := by decide
  refine ⟨?_, ?_, ?_⟩
  · have h := (db_scheme_selection "mysql://user@host/db").1
      (by rw [hm]; decide) (by rw [hm]; decide) (by rw [hm]; decide)
      (by rw [hm]; decide) (fun k => k)
    rw [h, hm]
    rfl
  · exact (db_scheme_selection "sqlite:///data/mempool.db").2.1 (Or.inl hs)
  · exact (db_scheme_selection "postgresql://user@host/db").2.2 (Or.inr hp)

lemma uniqueKey_upsert (t : List TxDetailRow) (r : TxDetailRow)
    (h : uniqueKey t) : uniqueKey (upsertTxDetail t r) := by
  unfold upsertTxDetail
  rw [uniqueKey, List.pairwise_append]
  refine ⟨h.filter _, List.pairwise_singleton _ _, ?_⟩
  intro a ha b hb
  rcases List.mem_filter.1 ha with ⟨_, hpa⟩
  rw [List.mem_singleton] at hb
  subst hb
  simpa using hpa

/-- C8: `INSERT OR REPLACE` twice with the same `txid` leaves exactly one
`tx_details` row for that `txid`, holding the second call's field values;
and the one-row-per-txid invariant is preserved by every sequence of
upserts. -/
theorem upsert_txid_semantics (t : List TxDetailRow) (r1 r2 : TxDetailRow)
    (_h : r1.txid = r2.txid) :
    ((upsertTxDetail (upsertTxDetail t r1) r2).filter
        (fun r => r.txid == r2.txid)) = [r2] ∧
    ∀ (t0 rs : List TxDetailRow), uniqueKey t0 →
      uniqueKey (rs.foldl upsertTxDetail t0) := by
  constructor
  · simp only [upsertTxDetail, List.filter_append, List.filter_filter]
    simp
    exact fun a _ h1 h2 => absurd h1 h2
  · intro t0 rs
    induction rs generalizing t0 with
    | nil => intro h0; exact h0
    | cons r rs ih =>
      intro h0
      exact ih (upsertTxDetail t0 r) (uniqueKey_upsert t0 r h0)

/-- Witness for C8: two upserts of `"tx1"` into the empty table leave
exactly the second row for `"tx1"`. -/
theorem upsert_txid_semantics_witness :
    ((upsertTxDetail (upsertTxDetail []
        ⟨"tx1", "t1", false, some 404, some "err", none⟩)
        ⟨"tx1", "t2", true, some 200, none, some "ok"⟩).filter
      (fun r => r.txid == "tx1")) =
      [⟨"tx1", "t2", true, some 200, none, some "ok"⟩] :=
  (upsert_txid_semantics []
    ⟨"tx1", "t1", false, some 404, some "err", none⟩
    ⟨"tx1", "t2", true, some 200, none, some "ok"⟩ rfl).1

lemma foldl_record_all_err (calls : List (Bool × Option Nat)) :
    ∀ m : Metrics, (∀ c ∈ calls, c.1 = false) →
      (calls.foldl (fun m c => m.record c.1 c.2) m).total_ok = m.total_ok := by
  induction calls with
  | nil => intro m _; rfl
  | cons c cs ih =>
    intro m h
    have hc : c.1 = false := h c (List.mem_cons_self _ _)
    rw [List.foldl_cons,
      ih (m.record c.1 c.2) (fun d hd => h d (List.mem_cons_of_mem _ hd))]
    simp [Metrics.record, hc]

/-- C10: the run-metrics summary is total — if no successful fetch was
recorded the reported average latency is `0` (no division by zero), and if
no fetch at all was recorded the success rate is `0`. -/
theorem metrics_summary_total (calls : List (Bool × Option Nat)) :
    ((∀ c ∈ calls, c.1 = false) →
      (runMetrics calls).summaryAvgLatency = 0) ∧
    (calls = [] → (runMetrics calls).summaryRate = 0) := by
  constructor
  · intro h
    have h0 := foldl_record_all_err calls Metrics.init h
    rw [Metrics.summaryAvgLatency, if_pos]
    rw [runMetrics]
    exact h0
  · intro h
    subst h
    rfl

/-- Witness for C10: two failures give average latency `0`; an empty run
gives success rate `0`. -/
theorem metrics_summary_total_witness :
    (runMetrics [(false, none), (false, some 5)]).summaryAvgLatency = 0 ∧
    (runMetrics []).summaryRate = 0 :=
  ⟨(metrics_summary_total [(false, none), (false, some 5)]).1 (by decide),
   (metrics_summary_total []).2 rfl⟩

/-- C1 counterexample: `DbWriter._ensure_schema` creates no `tx_details`
table on either backend, and the postgres branch creates no indexes at all —
so the schema produced by the two backends is not equivalent
tables-plus-indexes-wise and the three-table claim fails. -/
theorem ensure_schema_claim_counterexample :
    ("tx_details" ∉ tableNames (dbWriterEnsureSchema .sqlite)) ∧
    ("tx_details" ∉ tableNames (dbWriterEnsureSchema .postgres)) ∧
    stmtsIndexes (dbWriterEnsureSchema .postgres) = [] := by
  refine ⟨by decide, by decide, rfl⟩

/-- C1 amended: `DbWriter._ensure_schema` creates two tables
(`api_snapshots`, `replacement_events`) on both backends, with identical
logical column signatures (names, NOT NULL, PRIMARY KEY); the four
supporting indexes are created by the sqlite branch only, the postgres
branch creating none; the `tx_details` table and its `fetched_at` index are
created by the separate `ensure_schema` of fetch_tx_details.py (sqlite
connections only); and each DDL sequence is idempotent from a fresh store
(`IF NOT EXISTS` semantics). -/
theorem ensure_schema_two_tables_sqlite_indexes :
    tableNames (dbWriterEnsureSchema .sqlite) =
      ["api_snapshots", "replacement_events"] ∧
    tableNames (dbWriterEnsureSchema .postgres) =
      ["api_snapshots", "replacement_events"] ∧
    logicalSigs (dbWriterEnsureSchema .sqlite) =
      logicalSigs (dbWriterEnsureSchema .postgres) ∧
    (stmtsIndexes (dbWriterEnsureSchema .sqlite)).map idxSig =
      [("idx_api_snapshots_time", "api_snapshots", ["observed_at"]),
       ("idx_api_snapshots_endpoint", "api_snapshots", ["endpoint"]),
       ("idx_replacement_events_time", "replacement_events", ["observed_at"]),
       ("idx_replacement_events_txids", "replacement_events",
         ["old_txid", "new_txid"])] ∧
    stmtsIndexes (dbWriterEnsureSchema .postgres) = [] ∧
    tableNames txDetailsEnsureSchema = ["tx_details"] ∧
    (stmtsIndexes txDetailsEnsureSchema).map idxSig =
      [("idx_tx_details_fetched_at", "tx_details", ["fetched_at"])] ∧
    applyDDL (applyDDL emptyDb (dbWriterEnsureSchema .sqlite))
        (dbWriterEnsureSchema .sqlite) =
      applyDDL emptyDb (dbWriterEnsureSchema .sqlite) ∧
    applyDDL (applyDDL emptyDb (dbWriterEnsureSchema .postgres))
        (dbWriterEnsureSchema .postgres) =
      applyDDL emptyDb (dbWriterEnsureSchema .postgres) ∧
    applyDDL (applyDDL emptyDb txDetailsEnsureSchema) txDetailsEnsureSchema =
      applyDDL emptyDb txDetailsEnsureSchema := by
  refine ⟨rfl, rfl, rfl, rfl, rfl, rfl, rfl, by decide, by decide, by decide⟩

end MempoolWatcher
